import Mathlib

/-
Shallow embedding of the ArduLink core of the SkyCanvas conductor
(src/conductor/src/ardulink/* and src/conductor/src/transformers/*).

Conventions used throughout:
* Machine integers are embedded as `Nat` (unsigned) or `Int` (signed); none of
  the embedded code paths can overflow, because the conductor only compares
  these fields against small constants and formats them.
* Bitsets (`EkfStatusFlags`, a `u16` bitflags type) are embedded as `Nat`
  with `&&&`/`|||` for the bitwise operations the code performs.
* Fields of external protocol structs that no embedded code path reads
  (e.g. the `f32` variance fields of `EKF_STATUS_REPORT_DATA`) are omitted.
* JSON (de)serialisation is performed by the external `serde_json` crate; an
  inbound payload is embedded as its parse result `Option MavMsg` (`none` for
  a malformed payload) and an outbound publish as the pre-encoding value.
-/

/-- `HealthStatus` enum from task_health.rs. -/
inductive HealthStatus
  | AWAITING_DATA
  | AWAITING_LOCK
  | HEALTHY
  | UNHEALTHY
deriving DecidableEq, Repr

/-- `SYS_STATUS_DATA` from the mavlink ardupilotmega dialect: the fields the
conductor's health checks read (`errors_comm : u16`, `battery_remaining : i8`)
plus the other integer telemetry fields of the struct. -/
structure SYS_STATUS_DATA where
  onboard_control_sensors_present : Nat
  onboard_control_sensors_enabled : Nat
  onboard_control_sensors_health : Nat
  load : Nat
  voltage_battery : Nat
  current_battery : Int
  battery_remaining : Int
  drop_rate_comm : Nat
  errors_comm : Nat
  errors_count1 : Nat
  errors_count2 : Nat
  errors_count3 : Nat
  errors_count4 : Nat
deriving DecidableEq, Repr

/-- `EKF_STATUS_REPORT_DATA` from the mavlink ardupilotmega dialect.  The
conductor reads only the `flags` bitset (`EkfStatusFlags`, a `u16`); the
floating-point variance fields are never read by any embedded code path and
are omitted. -/
structure EKF_STATUS_REPORT_DATA where
  flags : Nat
deriving DecidableEq, Repr

/-- `EkfStatusFlags::EKF_ATTITUDE` (bit 0). -/
def EKF_ATTITUDE : Nat := 1
/-- `EkfStatusFlags::EKF_VELOCITY_HORIZ` (bit 1). -/
def EKF_VELOCITY_HORIZ : Nat := 2
/-- `EkfStatusFlags::EKF_VELOCITY_VERT` (bit 2). -/
def EKF_VELOCITY_VERT : Nat := 4
/-- `EkfStatusFlags::EKF_POS_HORIZ_REL` (bit 3). -/
def EKF_POS_HORIZ_REL : Nat := 8
/-- `EkfStatusFlags::EKF_POS_HORIZ_ABS` (bit 4). -/
def EKF_POS_HORIZ_ABS : Nat := 16
/-- `EkfStatusFlags::EKF_POS_VERT_ABS` (bit 5). -/
def EKF_POS_VERT_ABS : Nat := 32

/-- Modelled from the spec: the `{:?}` debug rendering of an `EkfStatusFlags`
value, provided by the external bitflags/mavlink crates (not part of this
repository).  Only its determinism matters to any claim: it is some fixed pure
function of the flag bits.  We render the set flag names joined by pipes. -/
def ekfFlagsDebug (flags : Nat) : String :=
  let names :=
    (if flags &&& EKF_ATTITUDE != 0 then ["EKF_ATTITUDE"] else []) ++
    (if flags &&& EKF_VELOCITY_HORIZ != 0 then ["EKF_VELOCITY_HORIZ"] else []) ++
    (if flags &&& EKF_VELOCITY_VERT != 0 then ["EKF_VELOCITY_VERT"] else []) ++
    (if flags &&& EKF_POS_HORIZ_REL != 0 then ["EKF_POS_HORIZ_REL"] else []) ++
    (if flags &&& EKF_POS_HORIZ_ABS != 0 then ["EKF_POS_HORIZ_ABS"] else []) ++
    (if flags &&& EKF_POS_VERT_ABS != 0 then ["EKF_POS_VERT_ABS"] else [])
  if names.isEmpty then "(empty)" else String.intercalate " | " names

/-- `ArdulinkTask_Health::check_system_health` (task_health.rs lines 68-88).
Returns `(overall_healthy, reason)`. -/
def check_system_health (sys_status : SYS_STATUS_DATA) : Bool × String :=
  let comms_healthy : Bool := decide (sys_status.errors_comm < 100)
  let battery_healthy : Bool :=
    decide (sys_status.battery_remaining = -1) || decide (sys_status.battery_remaining > 20)
  let overall_healthy := comms_healthy && battery_healthy
  let reason :=
    if !overall_healthy then
      let reasons :=
        (if !comms_healthy then ["Comm errors: " ++ toString sys_status.errors_comm] else []) ++
        (if !battery_healthy then
          ["Battery low: " ++ toString sys_status.battery_remaining ++ "%"] else [])
      "System unhealthy: " ++ String.intercalate ", " reasons
    else
      "System status OK"
  (overall_healthy, reason)

/-- `ArdulinkTask_Health::check_ekf_attitude_velocity` (task_health.rs lines
91-103). -/
def check_ekf_attitude_velocity (ekf_status : EKF_STATUS_REPORT_DATA) : Bool × String :=
  let required_flags := EKF_ATTITUDE ||| EKF_VELOCITY_HORIZ
  let ok : Bool := decide (ekf_status.flags &&& required_flags = required_flags)
  let reason :=
    if ok then "EKF attitude/velocity OK"
    else "EKF attitude/velocity not ready (Flags: " ++ ekfFlagsDebug ekf_status.flags ++ ")"
  (ok, reason)

/-- `ArdulinkTask_Health::check_ekf_position` (task_health.rs lines 106-123). -/
def check_ekf_position (ekf_status : EKF_STATUS_REPORT_DATA) : Bool × String :=
  let horiz_pos_flags := EKF_POS_HORIZ_REL ||| EKF_POS_HORIZ_ABS
  let has_horiz_pos : Bool := decide (0 < ekf_status.flags &&& horiz_pos_flags)
  let has_vert_pos : Bool := decide (0 < ekf_status.flags &&& EKF_POS_VERT_ABS)
  let ok := has_horiz_pos && has_vert_pos
  let reason :=
    if ok then "EKF position lock OK"
    else "EKF position lock not ready (Flags: " ++ ekfFlagsDebug ekf_status.flags ++ ")"
  (ok, reason)

/-- The data-tracking fields of `ArdulinkTask_Health` that
`update_health_status` reads (task_health.rs lines 34-38). -/
structure HealthTrack where
  has_sys_status_data : Bool
  last_sys_status : Option SYS_STATUS_DATA
  has_ekf_data : Bool
  last_ekf_status : Option EKF_STATUS_REPORT_DATA
deriving DecidableEq, Repr

/-- `ArdulinkTask_Health::update_health_status` (task_health.rs lines 127-181),
as the pure function it is of the four data-tracking fields: it returns the
`(status, reason)` pair.  (The Rust method also stores the three intermediate
booleans `system_healthy`/`ekf_attitude_velocity_ok`/`ekf_position_ok` back
into `self`; those fields are never read by any later computation.) -/
def update_health_status (st : HealthTrack) : HealthStatus × String :=
  if !st.has_sys_status_data || !st.has_ekf_data then
    let current_reason :=
      (if !st.has_sys_status_data then ["Waiting for SYS_STATUS"] else []) ++
      (if !st.has_ekf_data then ["Waiting for EKF_STATUS_REPORT"] else [])
    (HealthStatus.AWAITING_DATA, String.intercalate "; " current_reason)
  else
    match st.last_sys_status with
    | none => (HealthStatus.AWAITING_DATA, "Missing SYS_STATUS data")
    | some sys_status =>
      let sysres := check_system_health sys_status
      if !sysres.1 then
        (HealthStatus.UNHEALTHY, String.intercalate "; " [sysres.2])
      else
        match st.last_ekf_status with
        | none => (HealthStatus.AWAITING_DATA, "Missing EKF_STATUS data")
        | some ekf_status =>
          let av := check_ekf_attitude_velocity ekf_status
          if !av.1 then
            (HealthStatus.AWAITING_LOCK, String.intercalate "; " ["System OK", av.2])
          else
            let pos := check_ekf_position ekf_status
            if !pos.1 then
              (HealthStatus.AWAITING_LOCK,
               String.intercalate "; " ["System OK", "EKF Att/Vel OK", pos.2])
            else
              (HealthStatus.HEALTHY, "System healthy and EKF locked")

/-- One inbound message the health task's subscription loop acts on
(task_health.rs lines 222-247): a `SYS_STATUS` payload from the SYS_STATUS
channel or an `EKF_STATUS_REPORT` payload from the EKF channel. -/
inductive HealthInMsg
  | sys (d : SYS_STATUS_DATA)
  | ekf (d : EKF_STATUS_REPORT_DATA)
deriving DecidableEq, Repr

/-- Effect of one successfully deserialised inbound message on the tracking
state (task_health.rs lines 226-227 and 239-240): the new value fully replaces
the previous one. -/
def applyHealthMsg (st : HealthTrack) (m : HealthInMsg) : HealthTrack :=
  match m with
  | .sys d => { st with has_sys_status_data := true, last_sys_status := some d }
  | .ekf d => { st with has_ekf_data := true, last_ekf_status := some d }

/-- The tracking state `ArdulinkTask_Health::new` starts from (task_health.rs
lines 55-58). -/
def initialTrack : HealthTrack :=
  { has_sys_status_data := false, last_sys_status := none
    has_ekf_data := false, last_ekf_status := none }

/-- Tracking state after a sequence of inbound messages, applied in arrival
order. -/
def runTrack (msgs : List HealthInMsg) : HealthTrack :=
  msgs.foldl applyHealthMsg initialTrack

/-- Latest `SYS_STATUS` payload of a message sequence, if any. -/
def latestSys (msgs : List HealthInMsg) : Option SYS_STATUS_DATA :=
  msgs.foldl (fun acc m => match m with | .sys d => some d | .ekf _ => acc) none

/-- Latest `EKF_STATUS_REPORT` payload of a message sequence, if any. -/
def latestEkf (msgs : List HealthInMsg) : Option EKF_STATUS_REPORT_DATA :=
  msgs.foldl (fun acc m => match m with | .ekf d => some d | .sys _ => acc) none

theorem runTrack_char (msgs : List HealthInMsg) :
    runTrack msgs =
      { has_sys_status_data := (latestSys msgs).isSome, last_sys_status := latestSys msgs
        has_ekf_data := (latestEkf msgs).isSome, last_ekf_status := latestEkf msgs } := by
  induction msgs using List.reverseRecOn with
  | nil => rfl
  | append_singleton l a ih =>
    cases a <;>
      simp [runTrack, latestSys, latestEkf, List.foldl_append, applyHealthMsg] at ih ⊢ <;>
      simp [ih]

theorem pos_of_testBit {x : Nat} {i : Nat} (h : x.testBit i = true) : 0 < x := by
  rcases Nat.eq_zero_or_pos x with h0 | h0
  · subst h0; simp [Nat.zero_testBit] at h
  · exact h0

theorem exists_testBit_of_pos {x : Nat} (h : 0 < x) : ∃ i, x.testBit i = true := by
  by_contra hc
  push_neg at hc
  have hx : x = 0 := Nat.eq_of_testBit_eq (fun i => by simp [Nat.zero_testBit, hc i])
  omega

theorem testBit_24_eq (i : Nat) : Nat.testBit 24 i = (decide (i = 3) || decide (i = 4)) := by
  match i with
  | 0 => decide
  | 1 => decide
  | 2 => decide
  | 3 => decide
  | 4 => decide
  | (n+5) =>
    have h : (24 : Nat) < 2 ^ (n + 5) := by
      calc (24 : Nat) < 2 ^ 5 := by norm_num
      _ ≤ 2 ^ (n + 5) := Nat.pow_le_pow_right (by norm_num) (by omega)
    simp [Nat.testBit_lt_two_pow h]

theorem land_3_eq_3_iff (f : Nat) :
    (f &&& 3 = 3) ↔ (f.testBit 0 = true ∧ f.testBit 1 = true) := by
  have t0 : Nat.testBit 3 0 = true := by decide
  have t1 : Nat.testBit 3 1 = true := by decide
  constructor
  · intro h
    have h0 := congrArg (fun x => Nat.testBit x 0) h
    have h1 := congrArg (fun x => Nat.testBit x 1) h
    simp only [Nat.testBit_land, t0, t1, Bool.and_true] at h0 h1
    exact ⟨h0, h1⟩
  · rintro ⟨h0, h1⟩
    apply Nat.eq_of_testBit_eq
    intro i
    match i with
    | 0 => simp only [Nat.testBit_land, t0, Bool.and_true, h0]
    | 1 => simp only [Nat.testBit_land, t1, Bool.and_true, h1]
    | (n+2) =>
      have h : (3 : Nat) < 2 ^ (n + 2) := by
        calc (3 : Nat) < 2 ^ 2 := by norm_num
        _ ≤ 2 ^ (n + 2) := Nat.pow_le_pow_right (by norm_num) (by omega)
      simp only [Nat.testBit_land, Nat.testBit_lt_two_pow h, Bool.and_false]

theorem land_24_pos_iff (f : Nat) :
    (0 < f &&& 24) ↔ (f.testBit 3 = true ∨ f.testBit 4 = true) := by
  constructor
  · intro h
    obtain ⟨i, hi⟩ := exists_testBit_of_pos h
    rw [Nat.testBit_land, Bool.and_eq_true] at hi
    have h24 : (decide (i = 3) || decide (i = 4)) = true := by
      rw [← testBit_24_eq]; exact hi.2
    simp only [Bool.or_eq_true, decide_eq_true_eq] at h24
    rcases h24 with h3 | h4
    · left; rw [← h3]; exact hi.1
    · right; rw [← h4]; exact hi.1
  · rintro (h3 | h4)
    · apply pos_of_testBit (i := 3)
      rw [Nat.testBit_land, h3]
      decide
    · apply pos_of_testBit (i := 4)
      rw [Nat.testBit_land, h4]
      decide

theorem land_32_pos_iff (f : Nat) : (0 < f &&& 32) ↔ (f.testBit 5 = true) := by
  have h32 : (32 : Nat) = 2 ^ 5 := by norm_num
  rw [h32, Nat.and_two_pow]
  cases h : f.testBit 5 <;> simp [h]

/-- A healthy sample `SYS_STATUS` payload: no communication errors, 80 %
battery. -/
def sampleSysOk : SYS_STATUS_DATA := ⟨0, 0, 0, 0, 0, 0, 80, 0, 0, 0, 0, 0, 0⟩

/-- A sample `EKF_STATUS_REPORT` payload with attitude, both velocity, and all
three position flags set. -/
def sampleEkfOk : EKF_STATUS_REPORT_DATA := ⟨63⟩

/-- C5: the Health Monitor's `(state, reason)` pair is a pure function of the
latest-received value of each of the two message types: any two arrival orders
ending with the same final pair of latest values yield the same state and the
same reason. -/
theorem health_pure_of_latest (s1 s2 : List HealthInMsg)
    (hsys : latestSys s1 = latestSys s2) (hekf : latestEkf s1 = latestEkf s2) :
    update_health_status (runTrack s1) = update_health_status (runTrack s2) := by
  rw [runTrack_char, runTrack_char, hsys, hekf]

/-- C5 witness: two different arrival orders of the same two payloads (one of
them delivered twice) produce the same classification. -/
theorem health_pure_of_latest_witness :
    latestSys [HealthInMsg.sys sampleSysOk, HealthInMsg.ekf sampleEkfOk] =
      latestSys [HealthInMsg.ekf sampleEkfOk, HealthInMsg.sys sampleSysOk,
        HealthInMsg.sys sampleSysOk] ∧
    latestEkf [HealthInMsg.sys sampleSysOk, HealthInMsg.ekf sampleEkfOk] =
      latestEkf [HealthInMsg.ekf sampleEkfOk, HealthInMsg.sys sampleSysOk,
        HealthInMsg.sys sampleSysOk] ∧
    update_health_status (runTrack [HealthInMsg.sys sampleSysOk, HealthInMsg.ekf sampleEkfOk]) =
      update_health_status (runTrack [HealthInMsg.ekf sampleEkfOk,
        HealthInMsg.sys sampleSysOk, HealthInMsg.sys sampleSysOk]) :=
  ⟨rfl, rfl, health_pure_of_latest _ _ rfl rfl⟩

theorem check_system_health_fst_false_iff (s : SYS_STATUS_DATA) :
    (check_system_health s).1 = false ↔
      (100 ≤ s.errors_comm ∨ (s.battery_remaining ≠ -1 ∧ s.battery_remaining ≤ 20)) := by
  simp [check_system_health]
  omega

theorem check_system_health_snd (s : SYS_STATUS_DATA)
    (h : 100 ≤ s.errors_comm ∨ (s.battery_remaining ≠ -1 ∧ s.battery_remaining ≤ 20)) :
    (check_system_health s).2 =
      "System unhealthy: " ++ String.intercalate ", "
        ((if 100 ≤ s.errors_comm then ["Comm errors: " ++ toString s.errors_comm] else []) ++
         (if s.battery_remaining ≠ -1 ∧ s.battery_remaining ≤ 20 then
           ["Battery low: " ++ toString s.battery_remaining ++ "%"] else [])) := by
  by_cases hc : s.errors_comm < 100 <;>
    by_cases hb : s.battery_remaining = -1 <;>
    by_cases hb2 : 20 < s.battery_remaining
  · exact absurd h (by omega)
  · exact absurd h (by omega)
  · exact absurd h (by omega)
  · have f1 : ¬ (100 ≤ s.errors_comm) := by omega
    have f2 : s.battery_remaining ≠ -1 ∧ s.battery_remaining ≤ 20 := by omega
    simp [check_system_health, hc, hb, hb2, f1, f2]
  · have f1 : 100 ≤ s.errors_comm := by omega
    have f2 : ¬ (s.battery_remaining ≠ -1 ∧ s.battery_remaining ≤ 20) := by omega
    simp [check_system_health, hc, hb, hb2, f1, f2]
  · have f1 : 100 ≤ s.errors_comm := by omega
    have f2 : ¬ (s.battery_remaining ≠ -1 ∧ s.battery_remaining ≤ 20) := by omega
    simp [check_system_health, hc, hb, hb2, f1, f2]
  · have f1 : 100 ≤ s.errors_comm := by omega
    have f2 : ¬ (s.battery_remaining ≠ -1 ∧ s.battery_remaining ≤ 20) := by omega
    have f3 : ¬ (s.battery_remaining ≤ 20) := by omega
    simp [check_system_health, hc, hb, hb2, f1, f2, f3]
  · have f1 : 100 ≤ s.errors_comm := by omega
    have f2 : s.battery_remaining ≠ -1 ∧ s.battery_remaining ≤ 20 := by omega
    simp [check_system_health, hc, hb, hb2, f1, f2]

theorem check_ekf_attitude_velocity_fst_iff (e : EKF_STATUS_REPORT_DATA) :
    (check_ekf_attitude_velocity e).1 = true ↔
      (e.flags.testBit 0 = true ∧ e.flags.testBit 1 = true) := by
  have h3 : (EKF_ATTITUDE ||| EKF_VELOCITY_HORIZ : Nat) = 3 := by decide
  simp [check_ekf_attitude_velocity, h3, land_3_eq_3_iff]

theorem check_ekf_position_fst_iff (e : EKF_STATUS_REPORT_DATA) :
    (check_ekf_position e).1 = true ↔
      ((e.flags.testBit 3 = true ∨ e.flags.testBit 4 = true) ∧ e.flags.testBit 5 = true) := by
  have h24 : (EKF_POS_HORIZ_REL ||| EKF_POS_HORIZ_ABS : Nat) = 24 := by decide
  have h32 : (EKF_POS_VERT_ABS : Nat) = 32 := by decide
  simp [check_ekf_position, h24, h32, land_24_pos_iff, land_32_pos_iff]

/-- C3: in every state reachable by a sequence of inbound health messages, the
transition function returns `AWAITING_DATA` with a reason listing exactly the
missing message types while either type has never been received; once both
have been received, a failing system-health check (communication-error counter
at or above 100, or battery percentage reported and at or below 20) yields
`UNHEALTHY` with a reason naming each failing check, and the result does not
depend on the EKF value (system health short-circuits the EKF checks). -/
theorem health_awaiting_data_and_unhealthy (msgs : List HealthInMsg) :
    (latestSys msgs = none → latestEkf msgs = none →
      update_health_status (runTrack msgs) =
        (HealthStatus.AWAITING_DATA, "Waiting for SYS_STATUS; Waiting for EKF_STATUS_REPORT")) ∧
    (∀ ekf, latestSys msgs = none → latestEkf msgs = some ekf →
      update_health_status (runTrack msgs) =
        (HealthStatus.AWAITING_DATA, "Waiting for SYS_STATUS")) ∧
    (∀ sys, latestSys msgs = some sys → latestEkf msgs = none →
      update_health_status (runTrack msgs) =
        (HealthStatus.AWAITING_DATA, "Waiting for EKF_STATUS_REPORT")) ∧
    (∀ sys ekf, latestSys msgs = some sys → latestEkf msgs = some ekf →
      (100 ≤ sys.errors_comm ∨ (sys.battery_remaining ≠ -1 ∧ sys.battery_remaining ≤ 20)) →
      (update_health_status (runTrack msgs)).1 = HealthStatus.UNHEALTHY ∧
      (update_health_status (runTrack msgs)).2 =
        "System unhealthy: " ++ String.intercalate ", "
          ((if 100 ≤ sys.errors_comm then ["Comm errors: " ++ toString sys.errors_comm] else []) ++
           (if sys.battery_remaining ≠ -1 ∧ sys.battery_remaining ≤ 20 then
             ["Battery low: " ++ toString sys.battery_remaining ++ "%"] else [])) ∧
      (∀ ekf2, update_health_status
          { has_sys_status_data := true, last_sys_status := some sys
            has_ekf_data := true, last_ekf_status := some ekf2 } =
        update_health_status (runTrack msgs))) := by
  refine ⟨?_, ?_, ?_, ?_⟩
  · intro h1 h2
    rw [runTrack_char, h1, h2]
    rfl
  · intro ekf h1 h2
    rw [runTrack_char, h1, h2]
    rfl
  · intro sys h1 h2
    rw [runTrack_char, h1, h2]
    rfl
  · intro sys ekf h1 h2 hunh
    rw [runTrack_char, h1, h2]
    have hfalse : (check_system_health sys).1 = false :=
      (check_system_health_fst_false_iff sys).mpr hunh
    refine ⟨?_, ?_, ?_⟩
    · simp [update_health_status, hfalse]
    · simp [update_health_status, hfalse]
      exact check_system_health_snd sys hunh
    · intro ekf2
      simp [update_health_status, hfalse]

/-- C3 witness: with a `SYS_STATUS` showing 150 communication errors and 10 %
battery and any EKF report, the monitor reports `UNHEALTHY` naming both
failing checks; with no messages at all it reports `AWAITING_DATA` naming both
missing types. -/
theorem health_awaiting_data_and_unhealthy_witness :
    update_health_status (runTrack []) =
      (HealthStatus.AWAITING_DATA, "Waiting for SYS_STATUS; Waiting for EKF_STATUS_REPORT") ∧
    (update_health_status (runTrack
        [HealthInMsg.sys ⟨0, 0, 0, 0, 0, 0, 10, 0, 150, 0, 0, 0, 0⟩,
         HealthInMsg.ekf sampleEkfOk])).1 = HealthStatus.UNHEALTHY ∧
    (update_health_status (runTrack
        [HealthInMsg.sys ⟨0, 0, 0, 0, 0, 0, 10, 0, 150, 0, 0, 0, 0⟩,
         HealthInMsg.ekf sampleEkfOk])).2 =
      "System unhealthy: Comm errors: 150, Battery low: 10%" := by
  have h1 := (health_awaiting_data_and_unhealthy []).1 rfl rfl
  have h4 := (health_awaiting_data_and_unhealthy
      [HealthInMsg.sys ⟨0, 0, 0, 0, 0, 0, 10, 0, 150, 0, 0, 0, 0⟩,
       HealthInMsg.ekf sampleEkfOk]).2.2.2
      ⟨0, 0, 0, 0, 0, 0, 10, 0, 150, 0, 0, 0, 0⟩ sampleEkfOk rfl rfl (by decide)
  refine ⟨h1, h4.1, ?_⟩
  rw [h4.2.1]
  rfl

/-- C4: in every reachable state where both message types have been received
and the system-health check passes, the classification is `AWAITING_LOCK`
unless the EKF flags have both EKF_ATTITUDE (bit 0) and EKF_VELOCITY_HORIZ
(bit 1) set; otherwise `AWAITING_LOCK` unless they also satisfy
(EKF_POS_HORIZ_REL (bit 3) or EKF_POS_HORIZ_ABS (bit 4)) and EKF_POS_VERT_ABS
(bit 5); otherwise `HEALTHY`. -/
theorem health_ekf_lock_classification (msgs : List HealthInMsg) :
    ∀ sys ekf, latestSys msgs = some sys → latestEkf msgs = some ekf →
      sys.errors_comm < 100 → (sys.battery_remaining = -1 ∨ 20 < sys.battery_remaining) →
      (¬ (ekf.flags.testBit 0 = true ∧ ekf.flags.testBit 1 = true) →
          (update_health_status (runTrack msgs)).1 = HealthStatus.AWAITING_LOCK) ∧
      ((ekf.flags.testBit 0 = true ∧ ekf.flags.testBit 1 = true) →
       ¬ ((ekf.flags.testBit 3 = true ∨ ekf.flags.testBit 4 = true) ∧
          ekf.flags.testBit 5 = true) →
          (update_health_status (runTrack msgs)).1 = HealthStatus.AWAITING_LOCK) ∧
      ((ekf.flags.testBit 0 = true ∧ ekf.flags.testBit 1 = true) →
       ((ekf.flags.testBit 3 = true ∨ ekf.flags.testBit 4 = true) ∧
          ekf.flags.testBit 5 = true) →
          update_health_status (runTrack msgs) =
            (HealthStatus.HEALTHY, "System healthy and EKF locked")) := by
  intro sys ekf h1 h2 hc hb
  rw [runTrack_char, h1, h2]
  have hTrue : (check_system_health sys).1 = true := by
    cases h' : (check_system_health sys).1
    · exfalso
      have := (check_system_health_fst_false_iff sys).mp h'
      omega
    · rfl
  refine ⟨?_, ?_, ?_⟩
  · intro hav
    have havf : (check_ekf_attitude_velocity ekf).1 = false := by
      cases h' : (check_ekf_attitude_velocity ekf).1
      · rfl
      · exact absurd ((check_ekf_attitude_velocity_fst_iff ekf).mp h') hav
    simp [update_health_status, hTrue, havf]
  · intro hav hpos
    have havt : (check_ekf_attitude_velocity ekf).1 = true :=
      (check_ekf_attitude_velocity_fst_iff ekf).mpr hav
    have hposf : (check_ekf_position ekf).1 = false := by
      cases h' : (check_ekf_position ekf).1
      · rfl
      · exact absurd ((check_ekf_position_fst_iff ekf).mp h') hpos
    simp [update_health_status, hTrue, havt, hposf]
  · intro hav hpos
    have havt : (check_ekf_attitude_velocity ekf).1 = true :=
      (check_ekf_attitude_velocity_fst_iff ekf).mpr hav
    have hpost : (check_ekf_position ekf).1 = true :=
      (check_ekf_position_fst_iff ekf).mpr hpos
    simp [update_health_status, hTrue, havt, hpost]

/-- C4 witness: with a healthy `SYS_STATUS`, EKF flags 3 (attitude+velocity
only) give `AWAITING_LOCK` and EKF flags 63 (all position bits too) give
`HEALTHY`. -/
theorem health_ekf_lock_classification_witness :
    (update_health_status (runTrack
        [HealthInMsg.sys sampleSysOk, HealthInMsg.ekf ⟨3⟩])).1 =
      HealthStatus.AWAITING_LOCK ∧
    update_health_status (runTrack
        [HealthInMsg.sys sampleSysOk, HealthInMsg.ekf sampleEkfOk]) =
      (HealthStatus.HEALTHY, "System healthy and EKF locked") := by
  have hlock := (health_ekf_lock_classification
      [HealthInMsg.sys sampleSysOk, HealthInMsg.ekf ⟨3⟩]
      sampleSysOk ⟨3⟩ rfl rfl (by decide) (by decide)).2.1
      (by decide) (by decide)
  have hok := (health_ekf_lock_classification
      [HealthInMsg.sys sampleSysOk, HealthInMsg.ekf sampleEkfOk]
      sampleSysOk sampleEkfOk rfl rfl (by decide) (by decide)).2.2
      (by decide) (by decide)
  exact ⟨hlock, hok⟩

/-- `HEARTBEAT_DATA` from the mavlink ardupilotmega dialect; the enum-typed
fields (`MavType`, `MavAutopilot`, `MavState`) are embedded by their variant
tag, the `MavModeFlag` bitset by its bits. -/
structure HEARTBEAT_DATA where
  custom_mode : Nat
  mavtype : String
  autopilot : String
  base_mode : Nat
  system_status : String
  mavlink_version : Nat
deriving DecidableEq, Repr

/-- `REQUEST_DATA_STREAM_DATA` from the mavlink ardupilotmega dialect. -/
structure REQUEST_DATA_STREAM_DATA where
  target_system : Nat
  target_component : Nat
  req_stream_id : Nat
  req_message_rate : Nat
  start_stop : Nat
deriving DecidableEq, Repr

/-- `MavMessage` (the mavlink tagged union), restricted to the variants the
conductor constructs or matches on; every other variant is carried
abstractly by its discriminant tag. -/
inductive MavMsg
  | HEARTBEAT (d : HEARTBEAT_DATA)
  | SYS_STATUS (d : SYS_STATUS_DATA)
  | EKF_STATUS_REPORT (d : EKF_STATUS_REPORT_DATA)
  | REQUEST_DATA_STREAM (d : REQUEST_DATA_STREAM_DATA)
  | OTHER (tag : String)
deriving DecidableEq, Repr

/-- Modelled from the spec: `cursed_strings::mavlink_message_type` (the module
`src/conductor/src/ardulink/cursed_strings.rs` is referenced by task_recv.rs
and task_send.rs but is not present under src/): per §4.2 of the spec, the
per-type topic component is "the variant's discriminant name
(case-preserving)". -/
def mavlinkMessageType : MavMsg → String
  | .HEARTBEAT _ => "HEARTBEAT"
  | .SYS_STATUS _ => "SYS_STATUS"
  | .EKF_STATUS_REPORT _ => "EKF_STATUS_REPORT"
  | .REQUEST_DATA_STREAM _ => "REQUEST_DATA_STREAM"
  | .OTHER tag => tag

/-- The outbound bus topic (task_heartbeat.rs line 81, task_request_stream.rs
line 68, task_send.rs). -/
def outboundTopic : String := "channels/ardulink/send"

/-- The topic the Heartbeat worker subscribes to for its
wait-for-first-heartbeat gate (task_heartbeat.rs line 52). -/
def hbSubscribeTopic : String := "channels/ardulink/recv"

/-- The topic the Stream-Request worker subscribes to for its gate
(task_request_stream.rs line 42). -/
def rsSubscribeTopic : String := "channels/ardulink/recv/HEARTBEAT"

/-- The per-message-type topic the Receive worker publishes each successfully
received message to (task_recv.rs line 45). -/
def recvPublishTopic (m : MavMsg) : String :=
  "channels/ardulink/recv/" ++ mavlinkMessageType m

/-- The fixed ground-station liveness message the Heartbeat worker publishes
(task_heartbeat.rs lines 39-46). -/
def gcsHeartbeat : MavMsg :=
  .HEARTBEAT
    { custom_mode := 0, mavtype := "MAV_TYPE_GCS", autopilot := "MAV_AUTOPILOT_INVALID"
      base_mode := 0, system_status := "MAV_STATE_ACTIVE", mavlink_version := 3 }

/-- The one stream-rate-configuration message the Stream-Request worker
publishes (task_request_stream.rs lines 29-35): `REQUEST_DATA_STREAM` with a
fixed rate of 2. -/
def requestStreamMsg : MavMsg :=
  .REQUEST_DATA_STREAM
    { target_system := 0, target_component := 0, req_stream_id := 0
      req_message_rate := 2, start_stop := 1 }

/-
Time/interleaving model for the Heartbeat and Stream-Request workers.
Both workers poll the shared one-shot `should_stop` flag (`AtomicBool`, never
reset once set); loads of the flag are numbered consecutively by a check
index `k`, and the whole execution is parameterised by `stopAt : Option Nat`:
check number `k` reads `true` exactly when `stopAt = some s` with `s ≤ k`
(monotone, as for the real one-shot flag; `none` = the flag is never set).
Each loop iteration of the Rust code performs its (redundant, back-to-back)
flag loads at the loop head with no intervening work, embedded as a single
check.  The worker's inbound subscription delivers the parse results of its
payloads in order (`none` = `serde_json` failed to parse the payload, which
the `?` operator turns into an early error return of the task).
-/

/-- Value of the one-shot stop flag at check index `k`. -/
def stopRead (stopAt : Option Nat) (k : Nat) : Bool :=
  match stopAt with
  | none => false
  | some s => decide (s ≤ k)

/-- Outcome of the shared wait-for-first-heartbeat loop (task_heartbeat.rs
lines 57-73, task_request_stream.rs lines 47-63 — the two loops are
textually identical). -/
inductive WaitExit
  | gate (k : Nat)
  | stopped (k : Nat)
  | parseError
  | starved
deriving DecidableEq, Repr

/-- The wait-for-first-heartbeat loop: while the stop flag reads false, await
the next inbound payload; a payload that fails to parse aborts the task (the
`?` operator); a parsed `HEARTBEAT` breaks out of the loop (gate opens); any
other message is ignored.  `starved` records the execution in which the
subscription never yields another message and the worker stays blocked in
`next().await` forever. -/
def waitFirstHeartbeat (stopAt : Option Nat) :
    Nat → List (Option MavMsg) → WaitExit
  | k, [] => if stopRead stopAt k then .stopped k else .starved
  | k, m :: rest =>
    if stopRead stopAt k then .stopped k
    else
      match m with
      | none => .parseError
      | some (MavMsg.HEARTBEAT _) => .gate (k + 1)
      | some _ => waitFirstHeartbeat stopAt (k + 1) rest

/-- Whether the wait loop ended because a heartbeat was observed. -/
def sawHeartbeat : WaitExit → Bool
  | .gate _ => true
  | _ => false

/-- The Heartbeat worker's periodic-emit loop (task_heartbeat.rs lines 76-83)
starting at check index `k` with the flag set at check `s`: while the flag
reads false, publish the fixed ground-station heartbeat and sleep 1 s. -/
def hbEmitLoop (s k : Nat) : List (String × MavMsg) :=
  if k < s then (outboundTopic, gcsHeartbeat) :: hbEmitLoop s (k + 1) else []
termination_by s - k

/-- Complete outbound-publish trace of the Heartbeat worker for an execution
in which the stop flag is eventually set (at check index `s`): publishes
happen only after the wait loop exits through the gate. -/
def hbRun (s : Nat) (msgs : List (Option MavMsg)) : List (String × MavMsg) :=
  match waitFirstHeartbeat (some s) 0 msgs with
  | .gate k => hbEmitLoop s k
  | _ => []

/-- Whether the Heartbeat worker ever publishes, for arbitrary `stopAt`
(including executions in which the flag is never set and the emit loop runs
forever). -/
def hbEverPublishes (stopAt : Option Nat) (msgs : List (Option MavMsg)) : Bool :=
  match waitFirstHeartbeat stopAt 0 msgs with
  | .gate k => !stopRead stopAt k
  | _ => false

/-- Complete outbound-publish trace of the Stream-Request worker
(task_request_stream.rs lines 37-71): after the wait loop exits — through the
gate OR because the stop flag was read true — the task unconditionally
publishes the single stream-request message and returns; the parse-error and
starved exits publish nothing. -/
def rsRun (stopAt : Option Nat) (msgs : List (Option MavMsg)) :
    List (String × MavMsg) :=
  match waitFirstHeartbeat stopAt 0 msgs with
  | .gate _ => [(outboundTopic, requestStreamMsg)]
  | .stopped _ => [(outboundTopic, requestStreamMsg)]
  | .parseError => []
  | .starved => []

theorem hbEmitLoop_eq_replicate (s : Nat) :
    ∀ k, hbEmitLoop s k = List.replicate (s - k) (outboundTopic, gcsHeartbeat) := by
  suffices H : ∀ n k, s - k = n →
      hbEmitLoop s k = List.replicate n (outboundTopic, gcsHeartbeat) from
    fun k => H (s - k) k rfl
  intro n
  induction n with
  | zero =>
    intro k hk
    have hks : ¬ k < s := by omega
    rw [hbEmitLoop]
    simp [hks, hk]
  | succ n ih =>
    intro k hk
    have hks : k < s := by omega
    rw [hbEmitLoop]
    rw [ih (k + 1) (by omega)]
    simp [hks, List.replicate_succ]

/-- C1 counterexample: an execution in which the StopSignal is set before the
Stream-Request worker's first flag check (`stopAt = some 0`): the wait loop
exits through the stop branch without ever observing a heartbeat, and the
worker still publishes the stream-request message onto the outbound topic. -/
theorem stream_request_publishes_without_heartbeat :
    rsRun (some 0) [] = [(outboundTopic, requestStreamMsg)] ∧
    sawHeartbeat (waitFirstHeartbeat (some 0) 0 []) = false :=
  ⟨rfl, rfl⟩

/-- C1 amended: the Heartbeat worker never publishes to the outbound topic
before a liveness message has been observed on its own inbound subscription,
in every execution; the Stream-Request worker enforces the same gate on its
own subscription (no shared barrier — each gate is a function of that
worker's own stream and stop-flag reads alone) EXCEPT that once the
StopSignal has been set its wait loop may exit without a heartbeat and the
worker then still publishes its single stream-request message. -/
theorem outbound_gated_on_first_heartbeat_amended :
    (∀ stopAt msgs, hbEverPublishes stopAt msgs = true →
       sawHeartbeat (waitFirstHeartbeat stopAt 0 msgs) = true) ∧
    (∀ stopAt msgs, rsRun stopAt msgs ≠ [] →
       sawHeartbeat (waitFirstHeartbeat stopAt 0 msgs) = true ∨
         (∃ k, waitFirstHeartbeat stopAt 0 msgs = WaitExit.stopped k)) := by
  constructor
  · intro stopAt msgs h
    unfold hbEverPublishes at h
    cases hw : waitFirstHeartbeat stopAt 0 msgs <;> rw [hw] at h <;>
      simp_all [sawHeartbeat]
  · intro stopAt msgs h
    unfold rsRun at h
    cases hw : waitFirstHeartbeat stopAt 0 msgs <;> rw [hw] at h
    · left; rfl
    · right; exact ⟨_, rfl⟩
    · simp at h
    · simp at h

/-- C1 amended witness: a run of the Heartbeat worker that publishes (stop at
check 5, heartbeat as first inbound payload) did observe a heartbeat; the
stopped-without-heartbeat Stream-Request run falls under the stop
exception. -/
theorem outbound_gated_on_first_heartbeat_amended_witness :
    sawHeartbeat (waitFirstHeartbeat (some 5) 0 [some gcsHeartbeat]) = true ∧
    (sawHeartbeat (waitFirstHeartbeat (some 0) 0 ([] : List (Option MavMsg))) = true ∨
      (∃ k, waitFirstHeartbeat (some 0) 0 ([] : List (Option MavMsg)) =
        WaitExit.stopped k)) :=
  ⟨outbound_gated_on_first_heartbeat_amended.1 (some 5) [some gcsHeartbeat] rfl,
   outbound_gated_on_first_heartbeat_amended.2 (some 0) [] (by decide)⟩

/-- C2 (code bug): the topic the Heartbeat worker actually subscribes to for
its gate, `channels/ardulink/recv`, is not the topic on which the Receive
worker republishes the vehicle's HEARTBEAT messages — that is
`channels/ardulink/recv/HEARTBEAT` (which is what the Stream-Request worker
subscribes to).  With the bus's exact-match subscription the Heartbeat
worker's gate can never observe a republished liveness message, so the 1 s
emit loop is never reached. -/
theorem heartbeat_subscribe_topic_mismatch :
    ∀ d, recvPublishTopic (MavMsg.HEARTBEAT d) ≠ hbSubscribeTopic ∧
      recvPublishTopic (MavMsg.HEARTBEAT d) = rsSubscribeTopic := by
  intro d
  have h : recvPublishTopic (MavMsg.HEARTBEAT d) = "channels/ardulink/recv/HEARTBEAT" := rfl
  refine ⟨?_, rfl⟩
  rw [h]
  decide

/-- C8: whenever the Stream-Request worker's wait-for-first-heartbeat gate
completes, the worker publishes exactly one message — the fixed
REQUEST_DATA_STREAM — onto the outbound topic and terminates, and in every
execution its outbound trace has at most one element. -/
theorem stream_request_publishes_exactly_once :
    (∀ stopAt msgs k, waitFirstHeartbeat stopAt 0 msgs = WaitExit.gate k →
       rsRun stopAt msgs = [(outboundTopic, requestStreamMsg)]) ∧
    (∀ stopAt msgs, (rsRun stopAt msgs).length ≤ 1) := by
  constructor
  · intro stopAt msgs k h
    unfold rsRun
    rw [h]
  · intro stopAt msgs
    unfold rsRun
    cases waitFirstHeartbeat stopAt 0 msgs <;> simp

/-- C8 witness: with the flag never set and a heartbeat as the first inbound
payload, the gate completes and the worker's whole outbound trace is the one
stream-request publish. -/
theorem stream_request_publishes_exactly_once_witness :
    rsRun none [some gcsHeartbeat] = [(outboundTopic, requestStreamMsg)] :=
  stream_request_publishes_exactly_once.1 none [some gcsHeartbeat] 1 rfl

/-- Outcome of one receive attempt in the Receive worker's loop (task_recv.rs
lines 37-59): a successfully decoded message, a `WouldBlock` I/O result, any
other (fatal) I/O error, or a parser error for an individual frame (the final
catch-all `_` arm of the Rust match). -/
inductive RecvOutcome
  | ok (m : MavMsg)
  | wouldBlock
  | parseErr
  | fatal
deriving DecidableEq, Repr

/-- Bus publishes of the Receive worker over a sequence of receive outcomes,
for an execution in which the StopSignal is never set (stop handling merely
exits the loop early and publishes nothing): a successful message is
published, JSON-encoded, to its per-type topic and the loop continues; a
`WouldBlock` sleeps and continues; a parser error is silently skipped; a
fatal I/O error breaks out of the loop. -/
def recvRun : List RecvOutcome → List (String × MavMsg)
  | [] => []
  | .ok m :: rest => (recvPublishTopic m, m) :: recvRun rest
  | .wouldBlock :: rest => recvRun rest
  | .parseErr :: rest => recvRun rest
  | .fatal :: _ => []

/-- Whether the Receive worker's loop terminates (breaks) on a fatal I/O
error somewhere in the outcome sequence. -/
def recvTerminated : List RecvOutcome → Bool
  | [] => false
  | .fatal :: _ => true
  | _ :: rest => recvTerminated rest

/-- A stream of 100 inbound frames in which every 10th is malformed
(positions 10, 20, …, 100). -/
def malformedEvery10 : List RecvOutcome :=
  (List.replicate 10
    (List.replicate 9 (RecvOutcome.ok (MavMsg.OTHER "ATTITUDE")) ++
      [RecvOutcome.parseErr])).flatten

/-- C7: a successfully received message is published to
`channels/ardulink/recv/<TYPE>` (TYPE the variant's discriminant name) and
the loop continues; a decode error for an individual frame is silently
skipped and the loop continues; a fatal I/O error terminates the worker; and
on the 100-frame stream with every 10th frame malformed, exactly 90 publishes
occur and the worker does not terminate. -/
theorem recv_worker_frame_outcomes :
    (∀ m rest, recvRun (RecvOutcome.ok m :: rest) =
        ("channels/ardulink/recv/" ++ mavlinkMessageType m, m) :: recvRun rest ∧
      recvTerminated (RecvOutcome.ok m :: rest) = recvTerminated rest) ∧
    (∀ rest, recvRun (RecvOutcome.parseErr :: rest) = recvRun rest ∧
      recvTerminated (RecvOutcome.parseErr :: rest) = recvTerminated rest) ∧
    (∀ rest, recvRun (RecvOutcome.fatal :: rest) = [] ∧
      recvTerminated (RecvOutcome.fatal :: rest) = true) ∧
    ((recvRun malformedEvery10).length = 90 ∧
      recvTerminated malformedEvery10 = false) :=
  ⟨fun _ _ => ⟨rfl, rfl⟩, fun _ => ⟨rfl, rfl⟩, fun _ => ⟨rfl, rfl⟩,
   ⟨rfl, rfl⟩⟩

/-- A registered transform (the `Transformer` trait of transformers/mod.rs):
an input topic, an output topic, and the transform function.  The `async`
`transform` returning `Result<String, Error>` is embedded as a function into
`Except`, with the error carried as text. -/
structure TransformerReg where
  topic : String
  out : String
  fn : String → Except String String

/-- The body of the per-transformer `if transformer.get_topic() == channel`
block of `TransformerTask::run` (transformers/task.rs lines 111-138): a
matching transform runs and publishes its result to its own output channel;
a transform error is logged and publishes nothing. -/
def evalTransformer (channel payload : String) (t : TransformerReg) :
    List (String × String) :=
  if t.topic == channel then
    match t.fn payload with
    | .ok transformed => [(t.out, transformed)]
    | .error _ => []
  else []

/-- The `for transformer in &self.transformers` loop run on one received
message (transformers/task.rs lines 111-139), collecting every publish in
registration order. -/
def processMessage (ts : List TransformerReg) (channel payload : String) :
    List (String × String) :=
  match ts with
  | [] => []
  | t :: rest => evalTransformer channel payload t ++ processMessage rest channel payload

/-- The pipeline worker's message loop over a sequence of received
`(channel, payload)` messages (transformers/task.rs lines 102-148). -/
def pipelineRun (ts : List TransformerReg) : List (String × String) → List (String × String)
  | [] => []
  | (channel, payload) :: rest => processMessage ts channel payload ++ pipelineRun ts rest

/-- C9: every registered transform whose input topic equals the message's
topic is evaluated — on success its result is published to its own output
topic; one transform's error does not affect the publishes of the other
transforms on that message (the run equals the run without the failing
transform), and does not affect the processing of any later message (the
pipeline is a homomorphism over message sequences). -/
theorem transform_pipeline_matching_and_isolation :
    (∀ ts channel payload t s, t ∈ ts → t.topic = channel →
       t.fn payload = Except.ok s →
       (t.out, s) ∈ processMessage ts channel payload) ∧
    (∀ channel payload l t r e, t.fn payload = Except.error e →
       processMessage (l ++ t :: r) channel payload =
         processMessage (l ++ r) channel payload) ∧
    (∀ ts m1 m2, pipelineRun ts (m1 ++ m2) = pipelineRun ts m1 ++ pipelineRun ts m2) := by
  refine ⟨?_, ?_, ?_⟩
  · intro ts channel payload t s hmem htopic hok
    induction ts with
    | nil => simp at hmem
    | cons hd tl ih =>
      rcases List.mem_cons.mp hmem with heq | hmem2
      · subst heq
        simp [processMessage, evalTransformer, htopic, hok]
      · simp only [processMessage]
        exact List.mem_append_right _ (ih hmem2)
  · intro channel payload l t r e herr
    induction l with
    | nil => simp [processMessage, evalTransformer, herr]
    | cons hd tl ih => simp [processMessage, ih]
  · intro ts m1 m2
    induction m1 with
    | nil => simp [pipelineRun]
    | cons hd tl ih =>
      rcases hd with ⟨channel, payload⟩
      simp [pipelineRun, ih]

/-- A sample transform that succeeds. -/
def sampleTransformOk : TransformerReg :=
  { topic := "channels/ardulink/recv/STATUSTEXT", out := "channels/ardulink/statustext"
    fn := fun s => Except.ok (s ++ "!") }

/-- A sample transform on the same input topic whose function always fails. -/
def sampleTransformErr : TransformerReg :=
  { topic := "channels/ardulink/recv/STATUSTEXT", out := "channels/ardulink/errtext"
    fn := fun _ => Except.error "boom" }

/-- C9 witness: on a concrete registry, a matching successful transform's
output is published, and adding a failing transform changes nothing. -/
theorem transform_pipeline_matching_and_isolation_witness :
    (sampleTransformOk.out, "x!") ∈
      processMessage [sampleTransformOk, sampleTransformErr]
        "channels/ardulink/recv/STATUSTEXT" "x" ∧
    processMessage [sampleTransformOk, sampleTransformErr]
        "channels/ardulink/recv/STATUSTEXT" "x" =
      processMessage [sampleTransformOk] "channels/ardulink/recv/STATUSTEXT" "x" :=
  ⟨transform_pipeline_matching_and_isolation.1
      [sampleTransformOk, sampleTransformErr] "channels/ardulink/recv/STATUSTEXT" "x"
      sampleTransformOk "x!" (by simp) rfl rfl,
   transform_pipeline_matching_and_isolation.2.1
      "channels/ardulink/recv/STATUSTEXT" "x" [sampleTransformOk]
      sampleTransformErr [] "boom" rfl⟩

/-- `update_interval` of the health task: 3 s, in milliseconds
(task_health.rs line 54). -/
def updateIntervalMs : Nat := 3000

/-- `check_interval` of the health task: 500 ms (task_health.rs line 52). -/
def checkIntervalMs : Nat := 500

/-- Health status bus topic (task_health.rs lines 199, 280, 312). -/
def healthStatusTopic : String := "ardulink/health/status"

/-- Health reason bus topic (task_health.rs lines 200, 281, 313). -/
def healthReasonTopic : String := "ardulink/health/reason"

/-- `serde_json::to_string` of a unit `HealthStatus` variant: the quoted
variant name. -/
def healthStatusJson : HealthStatus → String
  | .AWAITING_DATA => "\"AWAITING_DATA\""
  | .AWAITING_LOCK => "\"AWAITING_LOCK\""
  | .HEALTHY => "\"HEALTHY\""
  | .UNHEALTHY => "\"UNHEALTHY\""

/-
Time model for the health task's publish policy: `Instant`s are embedded as
milliseconds (`Nat`); `last_update_time.elapsed()` at an evaluation happening
at time `now` is `now - last_update_time` (time is monotone, so truncated
`Nat` subtraction agrees).  `last_check_time` only feeds the select's sleep
arm (when the next periodic evaluation becomes ready) and is not part of the
publish decision, so it is not carried in the state; an execution is a
sequence of evaluation events, each carrying its time.
-/

/-- The fields of `ArdulinkTask_Health` that the publish decision reads and
writes, plus the data-tracking fields. -/
structure MonState where
  current_status : HealthStatus
  last_reason : String
  last_update_time : Nat
  track : HealthTrack

/-- One evaluation of the health task's select loop: arrival of an inbound
message (`none` when the payload failed to deserialise or was of the wrong
type, which still triggers re-evaluation — task_health.rs lines 211-282), or
a firing of the periodic check arm (lines 284-315). -/
inductive MonEvent
  | msg (t : Nat) (m : Option HealthInMsg)
  | tick (t : Nat)

/-- The time at which an evaluation happens. -/
def monEventTime : MonEvent → Nat
  | .msg t _ => t
  | .tick t => t

/-- The tracking state against which the evaluation computes `(new_status,
new_reason)`: a message event first folds its payload in. -/
def monTrackAfter (st : MonState) : MonEvent → HealthTrack
  | .msg _ (some hm) => applyHealthMsg st.track hm
  | .msg _ none => st.track
  | .tick _ => st.track

/-- The `should_update` condition (task_health.rs lines 260-263 and 292-295):
status changed, or reason changed, or at least `update_interval` elapsed
since the last published update. -/
def monShouldUpdate (now : Nat) (st : MonState) (ns : HealthStatus) (nr : String) : Bool :=
  decide (ns ≠ st.current_status) || decide (nr ≠ st.last_reason) ||
    decide (updateIntervalMs ≤ now - st.last_update_time)

/-- The publish block both select arms share (task_health.rs lines 265-282
and 297-314): when `should_update` holds, store the new pair, stamp
`last_update_time`, and publish the status (JSON) and the reason to the two
health topics; otherwise leave the state unchanged and publish nothing. -/
def monEval (st : MonState) (now : Nat) : MonState × List (String × String) :=
  if monShouldUpdate now st (update_health_status st.track).1 (update_health_status st.track).2 then
    ({ st with current_status := (update_health_status st.track).1
               last_reason := (update_health_status st.track).2
               last_update_time := now },
     [(healthStatusTopic, healthStatusJson (update_health_status st.track).1),
      (healthReasonTopic, (update_health_status st.track).2)])
  else (st, [])

/-- One full evaluation of the select loop. -/
def monStep (st : MonState) (e : MonEvent) : MonState × List (String × String) :=
  match e with
  | .msg t m =>
    monEval { st with track := match m with
                               | some hm => applyHealthMsg st.track hm
                               | none => st.track } t
  | .tick t => monEval st t

theorem monEval_pub_iff (st : MonState) (now : Nat) :
    (monEval st now).2 ≠ [] ↔
      ((update_health_status st.track).1 ≠ st.current_status ∨
       (update_health_status st.track).2 ≠ st.last_reason ∨
       updateIntervalMs ≤ now - st.last_update_time) := by
  by_cases h : monShouldUpdate now st (update_health_status st.track).1
      (update_health_status st.track).2 = true
  · have h' := h
    unfold monShouldUpdate at h'
    simp only [Bool.or_eq_true, decide_eq_true_eq] at h'
    simp [monEval, h]
    tauto
  · rw [Bool.not_eq_true] at h
    have h' := h
    unfold monShouldUpdate at h'
    simp only [Bool.or_eq_false_iff, decide_eq_false_iff_not, not_not] at h'
    simp [monEval, h]
    refine ⟨h'.1.1, h'.1.2, ?_⟩
    omega

theorem monStep_eq_monEval (st : MonState) (e : MonEvent) :
    monStep st e = monEval { st with track := monTrackAfter st e } (monEventTime e) := by
  cases e with
  | msg t m => cases m <;> rfl
  | tick t => rfl

theorem monEval_pub_state (st : MonState) (now : Nat) (h : (monEval st now).2 ≠ []) :
    (monEval st now).1.current_status = (update_health_status st.track).1 ∧
    (monEval st now).1.last_reason = (update_health_status st.track).2 ∧
    (monEval st now).2 =
      [(healthStatusTopic, healthStatusJson (update_health_status st.track).1),
       (healthReasonTopic, (update_health_status st.track).2)] ∧
    (monEval st now).1.last_update_time = now := by
  by_cases hc : monShouldUpdate now st (update_health_status st.track).1
      (update_health_status st.track).2 = true
  · simp [monEval, hc]
  · rw [Bool.not_eq_true] at hc
    simp [monEval, hc] at h

theorem monEval_nopub_state (st : MonState) (now : Nat) (h : (monEval st now).2 = []) :
    (monEval st now).1 = st := by
  by_cases hc : monShouldUpdate now st (update_health_status st.track).1
      (update_health_status st.track).2 = true
  · simp [monEval, hc] at h
  · rw [Bool.not_eq_true] at hc
    simp [monEval, hc]

/-- C6: at every evaluation of the health task's select loop, the
`(status, reason)` pair is published to the two health topics iff the status
or the reason differs from the `(current_status, last_reason)` pair — which
the other three conjuncts show is exactly the last published pair: a publish
stores the published pair and stamps its time, and a non-publish leaves all
three fields unchanged — or at least the 3 s update interval has elapsed
since the last publish; in particular, any evaluation at which 3 s have
elapsed since the last publish re-publishes (with no new data the periodic
arm evaluates continuously, so the current status is re-emitted once every
3 s of elapsed time). -/
theorem health_publish_iff_changed_or_interval :
    (∀ st e, (monStep st e).2 ≠ [] ↔
      ((update_health_status (monTrackAfter st e)).1 ≠ st.current_status ∨
       (update_health_status (monTrackAfter st e)).2 ≠ st.last_reason ∨
       updateIntervalMs ≤ monEventTime e - st.last_update_time)) ∧
    (∀ st e, (monStep st e).2 ≠ [] →
      (monStep st e).1.current_status = (update_health_status (monTrackAfter st e)).1 ∧
      (monStep st e).1.last_reason = (update_health_status (monTrackAfter st e)).2 ∧
      (monStep st e).2 =
        [(healthStatusTopic, healthStatusJson (update_health_status (monTrackAfter st e)).1),
         (healthReasonTopic, (update_health_status (monTrackAfter st e)).2)] ∧
      (monStep st e).1.last_update_time = monEventTime e) ∧
    (∀ st e, (monStep st e).2 = [] →
      (monStep st e).1.current_status = st.current_status ∧
      (monStep st e).1.last_reason = st.last_reason ∧
      (monStep st e).1.last_update_time = st.last_update_time) ∧
    (∀ st t, updateIntervalMs ≤ t - st.last_update_time →
      (monStep st (MonEvent.tick t)).2 ≠ []) := by
  refine ⟨?_, ?_, ?_, ?_⟩
  · intro st e
    rw [monStep_eq_monEval]
    simpa using monEval_pub_iff { st with track := monTrackAfter st e } (monEventTime e)
  · intro st e h
    rw [monStep_eq_monEval] at h ⊢
    simpa using monEval_pub_state { st with track := monTrackAfter st e } (monEventTime e) h
  · intro st e h
    rw [monStep_eq_monEval] at h ⊢
    have hs := monEval_nopub_state { st with track := monTrackAfter st e } (monEventTime e) h
    rw [hs]
    exact ⟨rfl, rfl, rfl⟩
  · intro st t h
    rw [monStep_eq_monEval]
    exact ((monEval_pub_iff _ _).mpr (Or.inr (Or.inr h)))

/-- C6 witness: from the initial monitor state, a periodic evaluation at
t = 3000 ms (3 s after the startup publish at t = 0) publishes. -/
theorem health_publish_iff_changed_or_interval_witness :
    (monStep { current_status := HealthStatus.AWAITING_DATA
               last_reason := "Initializing health monitor"
               last_update_time := 0, track := initialTrack }
       (MonEvent.tick 3000)).2 ≠ [] :=
  health_publish_iff_changed_or_interval.2.2.2
    { current_status := HealthStatus.AWAITING_DATA
      last_reason := "Initializing health monitor"
      last_update_time := 0, track := initialTrack }
    3000 (by decide)

/-- The channel state of an `ArdulinkConnection` (connection.rs lines 29-37):
the bounded transmit and receive crossbeam channels, embedded as lists of
queued messages, plus the one-shot stop flag. -/
structure ConnState where
  transmit_q : List MavMsg
  recv_q : List MavMsg
  should_stop : Bool
deriving DecidableEq, Repr

/-- `ArdulinkConnection::send` (connection.rs lines 239-248): if the stop
flag is set, return `Ok(())` immediately; otherwise enqueue the message on
the transmit channel and return `Ok(())` (a bounded crossbeam send blocks
rather than errors while both ends are held by the struct, so the embedded
call always succeeds). -/
def connSend (st : ConnState) (m : MavMsg) : Except String Unit × ConnState :=
  if st.should_stop then (Except.ok (), st)
  else (Except.ok (), { st with transmit_q := st.transmit_q ++ [m] })

/-- `ArdulinkConnection::recv` (connection.rs lines 250-263): if the stop
flag is set, return `Ok` with the (empty) accumulator without touching the
receive channel; otherwise drain the receive channel with `try_recv` into a
vector and return it. -/
def connRecv (st : ConnState) : Except String (List MavMsg) × ConnState :=
  if st.should_stop then (Except.ok [], st)
  else (Except.ok st.recv_q, { st with recv_q := [] })

/-- C10: once the stop flag is set, `send` returns `Ok` for every message
without enqueuing it, and `recv` returns `Ok []` without draining the
receive channel — both leave the connection's channel state unchanged. -/
theorem connection_noop_after_stop (st : ConnState) (m : MavMsg)
    (h : st.should_stop = true) :
    connSend st m = (Except.ok (), st) ∧ connRecv st = (Except.ok [], st) := by
  simp [connSend, connRecv, h]

/-- C10 witness: a stopped connection with queued messages on both channels
is left exactly as it was by both calls. -/
theorem connection_noop_after_stop_witness :
    connSend ⟨[gcsHeartbeat], [requestStreamMsg], true⟩ gcsHeartbeat =
      (Except.ok (), ⟨[gcsHeartbeat], [requestStreamMsg], true⟩) ∧
    connRecv ⟨[gcsHeartbeat], [requestStreamMsg], true⟩ =
      (Except.ok [], ⟨[gcsHeartbeat], [requestStreamMsg], true⟩) :=
  connection_noop_after_stop ⟨[gcsHeartbeat], [requestStreamMsg], true⟩ gcsHeartbeat rfl
